import Mathlib

/-!
Verification development for the MFC backend telemetry ingestion and alerting
pipeline.  The definitions below are a shallow embedding of the JavaScript
sources:

  * `src/validations/telemetryValidator.js`  — `validateTelemetry`
  * `src/services/alertService.js`           — threshold rules, `createAlert`,
    `resolveAlertsForSensor`, `processTelemetryAlerts`, `checkDeviceOffline`
  * `src/services/mqttListener.js`           — `handleTelemetry`

JavaScript numbers are modelled as rationals extended with `NaN` and the two
infinities; `undefined` fields are modelled as `Option.none`, `null` as an
explicit value.  Stateful code (the in-memory dedup set, the Mongo collections
and the Socket.io broadcasts) is modelled by explicit state passing over
`SysState`; the `calls` and `trace` fields are instrumentation recording which
engine entry points were invoked and in which order the router steps ran.
-/

/-- A JavaScript number: a finite rational, `NaN`, `Infinity` or `-Infinity`. -/
inductive JSNum where
  | fin (q : ℚ)
  | nan
  | inf
  | negInf
deriving DecidableEq, Repr

/-- A JavaScript value as it can appear in a telemetry field:
a number, `null`, or a string (any other value is irrelevant to the sources:
the validator only distinguishes numbers, `null` and the two valve strings). -/
inductive JSVal where
  | num (n : JSNum)
  | null
  | str (s : String)
deriving DecidableEq, Repr

/-- JavaScript `<` on numbers (`NaN` makes every comparison false). -/
def JSNum.jsLt : JSNum → JSNum → Bool
  | .nan, _ => false
  | _, .nan => false
  | .negInf, .negInf => false
  | .negInf, _ => true
  | _, .negInf => false
  | .inf, _ => false
  | .fin _, .inf => true
  | .fin a, .fin b => decide (a < b)

/-- JavaScript `Number.isFinite`. -/
def JSNum.isFinite : JSNum → Bool
  | .fin _ => true
  | _ => false

/-- Is the value of JavaScript type `number` (`typeof v === 'number'`)?
`NaN` and the infinities are numbers. -/
def JSVal.isNumber : JSVal → Bool
  | .num _ => true
  | _ => false

/-- JavaScript `ToNumber` coercion as used by the relational operators on the
values reachable in this pipeline: `null` coerces to `+0`.  Numeric-string
coercion is not modelled (`.str` is mapped to `NaN`): the validator rejects a
string in any numeric field before a relational operator can ever see one. -/
def JSVal.toNum : JSVal → JSNum
  | .num n => n
  | .null => .fin 0
  | .str _ => .nan

/-- JavaScript `p.f < c` where the field `f` may be absent (`undefined`, which
compares as `NaN`), `null`, or a number, and `c` is a numeric literal. -/
def jsFieldLt (v : Option JSVal) (c : ℚ) : Bool :=
  match v with
  | none => false
  | some w => w.toNum.jsLt (.fin c)

/-- JavaScript `p.f > c` (i.e. `c < p.f`) on a possibly absent field. -/
def jsFieldGt (v : Option JSVal) (c : ℚ) : Bool :=
  match v with
  | none => false
  | some w => (JSNum.fin c).jsLt w.toNum

/-- A telemetry packet as destructured by `validateTelemetry`.  `none` models a
field that is absent from the JSON object (`undefined`); `timestamp` is
`none` when absent, `some none` when present but not parseable by `new Date`,
and `some (some t)` when it denotes the instant `t` (ms since the epoch). -/
structure Packet where
  timestamp : Option (Option Int) := none
  ph : Option JSVal := none
  tds : Option JSVal := none
  temperature : Option JSVal := none
  flow_rate : Option JSVal := none
  salinity : Option JSVal := none
  conductivity : Option JSVal := none
  current : Option JSVal := none
  voltage : Option JSVal := none
  power : Option JSVal := none
  valve_status : Option JSVal := none
deriving DecidableEq, Repr

/-- The `validation` block attached to an accepted packet. -/
structure ValidationBlock where
  status : String
  failed_parameters : List String
deriving DecidableEq, Repr

/-- Result of `validateTelemetry`: either a rejection with its reason string,
or acceptance carrying the payload, its validation block and the parsed
timestamp (the `date` the JS function returns). -/
inductive VResult where
  | invalid (reason : String)
  | valid (payload : Packet) (validation : ValidationBlock) (dateMs : Int)
deriving DecidableEq, Repr

/-- One hard-bound check: the check runs only when the field is present and
not `null`; `bad` decides rejection exactly as the JS condition does. -/
def fieldViolates (v : Option JSVal) (bad : JSVal → Bool) : Bool :=
  match v with
  | none => false
  | some .null => false
  | some w => bad w

/-- The per-field hard physics-bounds gate of `validateTelemetry` (step 3 of
the source), returning the first field-specific rejection reason, in source
order, or `none` when every present field passes. -/
def fieldBoundsError (p : Packet) : Option String :=
  if fieldViolates p.ph
      (fun w => !w.isNumber || !w.toNum.isFinite
        || w.toNum.jsLt (.fin 0) || (JSNum.fin 14).jsLt w.toNum) then
    some "ph must be a finite number between 0 and 14"
  else if fieldViolates p.tds (fun w => !w.isNumber || w.toNum.jsLt (.fin 0)) then
    some "tds must be >= 0"
  else if fieldViolates p.temperature (fun w => !w.isNumber || w.toNum.jsLt (.fin 0)) then
    some "temperature must be >= 0"
  else if fieldViolates p.flow_rate (fun w => !w.isNumber || w.toNum.jsLt (.fin 0)) then
    some "flow_rate must be >= 0"
  else if fieldViolates p.salinity (fun w => !w.isNumber || w.toNum.jsLt (.fin 0)) then
    some "salinity must be >= 0"
  else if fieldViolates p.conductivity (fun w => !w.isNumber || w.toNum.jsLt (.fin 0)) then
    some "conductivity must be >= 0"
  else if fieldViolates p.voltage
      (fun w => !w.isNumber || w.toNum.jsLt (.fin (-50)) || (JSNum.fin 50).jsLt w.toNum) then
    some "voltage must be between -50 and 50"
  else if fieldViolates p.current (fun w => !w.isNumber) then
    some "current must be a valid number"
  else if fieldViolates p.power (fun w => !w.isNumber) then
    some "power must be a valid number"
  else if fieldViolates p.valve_status
      (fun w => !(w == JSVal.str "OPEN" || w == JSVal.str "CLOSED")) then
    some "valve_status must be exactly OPEN or CLOSED"
  else
    none

/-- Soft (EOR) pH rule of step 5: flagged only when `ph` is present, not
`null`, and outside `[6.5, 8.5]`. -/
def softViolationPh (p : Packet) : Bool :=
  match p.ph with
  | none => false
  | some .null => false
  | some w => w.toNum.jsLt (.fin (mkRat 13 2)) || (JSNum.fin (mkRat 17 2)).jsLt w.toNum

/-- Soft (EOR) TDS rule of step 5: flagged only when `tds` is present, not
`null`, and `> 5000`. -/
def softViolationTds (p : Packet) : Bool :=
  match p.tds with
  | none => false
  | some .null => false
  | some w => (JSNum.fin 5000).jsLt w.toNum

/-- Step 5 of `validateTelemetry`: the soft-compliance block, `status = FAIL`
exactly when `failed_parameters` is non-empty, `ph` pushed before `tds`. -/
def softValidation (p : Packet) : ValidationBlock :=
  let fp := (if softViolationPh p then ["ph"] else [])
        ++ (if softViolationTds p then ["tds"] else [])
  { status := if fp.length > 0 then "FAIL" else "PASS", failed_parameters := fp }

/-- `MAX_LATENCY_MS` of `telemetryValidator.js`. -/
def MAX_LATENCY_MS : Int := 5000

/-- Shallow embedding of `validateTelemetry(rawPayload)`, with the current
clock `now` (JS `Date.now()`) passed explicitly.  The shape check (step 1) is
built into the `Packet` type; the remaining steps follow the source order:
timestamp presence, hard field bounds, timestamp parse, latency, soft
compliance. -/
def validateTelemetry (now : Int) (p : Packet) : VResult :=
  match p.timestamp with
  | none => .invalid "Missing required field: timestamp"
  | some ts =>
    match fieldBoundsError p with
    | some r => .invalid r
    | none =>
      match ts with
      | none => .invalid "Invalid timestamp format"
      | some t =>
        let latency := now - t
        if latency > MAX_LATENCY_MS then .invalid "Timestamp is too old (latency > 5s)"
        else if latency < -MAX_LATENCY_MS then .invalid "Timestamp is in the future"
        else .valid p (softValidation p) t

/-- JavaScript `Number.prototype.toFixed` on a non-negative rational:
round half-up to `d` decimal digits (ECMA picks the larger candidate on
ties), no decimal point when `d = 0`.  The rounded value
`⌊q·10^d + 1/2⌋` is computed on the numerator/denominator directly as
`(2·num·10^d + den) fdiv (2·den)`. -/
def ratToFixedPos (q : ℚ) (d : Nat) : String :=
  let n : Int := Int.fdiv (2 * q.num * (10 : Int) ^ d + (q.den : Int)) (2 * (q.den : Int))
  let ds : List Char := Nat.toDigits 10 n.toNat
  if d = 0 then String.mk ds
  else
    let ds := List.replicate (d + 1 - ds.length) '0' ++ ds
    let k := ds.length - d
    String.mk (ds.take k ++ ['.'] ++ ds.drop k)

/-- JavaScript `x.toFixed(d)` for any number `x`. -/
def JSNum.toFixed (x : JSNum) (d : Nat) : String :=
  match x with
  | .nan => "NaN"
  | .inf => "Infinity"
  | .negInf => "-Infinity"
  | .fin q => if q < 0 then "-" ++ ratToFixedPos (-q) d else ratToFixedPos q d

/-- An alert record as stored in the `alerts` collection (`models/Alert.js`):
`id` models the Mongo `_id` (allocated by a counter here), `tsMs` the
`timestamp` default `Date.now`. -/
structure AlertRecord where
  id : Nat
  severity : String
  sensor : String
  message : String
  value : Option JSVal
  threshold : String
  tsMs : Int
  status : String
  resolvedAt : Option Int
deriving DecidableEq, Repr

/-- The wire form produced by `formatAlert(doc)` in `alertService.js`. -/
structure FormattedAlert where
  id : String
  severity : String
  sensor : String
  message : String
  value : Option JSVal
  threshold : String
  timestamp : Int
  status : String
  resolvedAt : Option Int
deriving DecidableEq, Repr

/-- `formatAlert` of `alertService.js` (`_id` stringified; the Date→ISO string
conversion is modelled by keeping the instant in milliseconds). -/
def formatAlert (r : AlertRecord) : FormattedAlert :=
  { id := toString r.id, severity := r.severity, sensor := r.sensor,
    message := r.message, value := r.value, threshold := r.threshold,
    timestamp := r.tsMs, status := r.status, resolvedAt := r.resolvedAt }

/-- A Socket.io broadcast (`io.emit`) relevant to the pipeline. -/
inductive Event where
  | system_alert (a : FormattedAlert)
  | alert_resolved (sensor : String)
  | live_telemetry (payload : Packet) (validation : ValidationBlock)
deriving DecidableEq, Repr

/-- Instrumentation: one invocation of an Alert Engine entry point
(`createAlert`, i.e. fire, or `resolveAlertsForSensor`, i.e. clear),
recorded with the arguments it was invoked with. -/
inductive EngineCall where
  | fire (sensor severity message : String) (value : Option JSVal) (threshold : String)
  | clear (sensor : String)
deriving DecidableEq, Repr

/-- Instrumentation: one step of the router's telemetry path, in execution
order (`handleTelemetry` of `mqttListener.js`). -/
inductive RouterEvent where
  | persistAttempt (ok : Bool)
  | alertEvaluation
  | liveBroadcast
deriving DecidableEq, Repr

/-- One `SystemLog` document persisted by `handleTelemetry`. -/
structure SavedReading where
  tsMs : Int
  packet : Packet
  validation : ValidationBlock
deriving DecidableEq, Repr

/-- The whole mutable state of the pipeline: the in-memory `activeKeys` set
(keys are the strings `sensor:severity`), the durable `alerts` collection with
its id counter, the persisted `SystemLog` readings, the Socket.io broadcast
log, and the two instrumentation logs (`calls`: engine entry-point
invocations; `trace`: router step ordering). -/
structure SysState where
  activeKeys : List String
  alerts : List AlertRecord
  nextId : Nat
  readings : List SavedReading
  emitted : List Event
  calls : List EngineCall
  trace : List RouterEvent
deriving DecidableEq, Repr

/-- The empty initial state (fresh process, empty database). -/
def initState : SysState :=
  { activeKeys := [], alerts := [], nextId := 0, readings := [],
    emitted := [], calls := [], trace := [] }

/-- The Mongo query predicate of `Alert.findOne({ sensor, severity,
status: 'active' })` in `createAlert`. -/
def isActiveFor (sensor severity : String) (r : AlertRecord) : Bool :=
  r.sensor == sensor && r.severity == severity && r.status == "active"

/-- `Alert.findOne({ sensor, severity, status: 'active' })`. -/
def findActiveAlert (alerts : List AlertRecord) (sensor severity : String) :
    Option AlertRecord :=
  alerts.find? (isActiveFor sensor severity)

/-- Number of stored records matching `isActiveFor` (used to state the
deduplication bound). -/
def countActive (alerts : List AlertRecord) (sensor severity : String) : Nat :=
  (alerts.filter (isActiveFor sensor severity)).length

/-- JavaScript `key.startsWith(pre)`. -/
def jsStartsWith (key pre : String) : Bool :=
  pre.data.isPrefixOf key.data

/-- `createAlert(io, { severity, sensor, message, value, threshold })` of
`alertService.js`: no-op if the key is already in the in-memory set;
otherwise consult the DB for an `active` record (restart resync) and only
create + broadcast when none exists.  `now` is the clock used for the new
record's `timestamp` default. -/
def createAlert (now : Int) (st : SysState)
    (severity sensor message : String) (value : Option JSVal)
    (threshold : String) : SysState :=
  let st0 := { st with
    calls := st.calls ++ [EngineCall.fire sensor severity message value threshold] }
  let key := sensor ++ ":" ++ severity
  if key ∈ st0.activeKeys then st0
  else
    match findActiveAlert st0.alerts sensor severity with
    | some _ => { st0 with activeKeys := key :: st0.activeKeys }
    | none =>
      let doc : AlertRecord :=
        { id := st0.nextId, severity := severity, sensor := sensor,
          message := message, value := value, threshold := threshold,
          tsMs := now, status := "active", resolvedAt := none }
      { st0 with
        activeKeys := key :: st0.activeKeys,
        alerts := st0.alerts ++ [doc],
        emitted := st0.emitted ++ [Event.system_alert (formatAlert doc)],
        nextId := st0.nextId + 1 }

/-- The Mongo filter of `Alert.updateMany({ sensor, status: { $in:
['active', 'acknowledged'] } }, ...)` in `resolveAlertsForSensor`. -/
def matchesResolve (sensor : String) (r : AlertRecord) : Bool :=
  r.sensor == sensor && (r.status == "active" || r.status == "acknowledged")

/-- `resolveAlertsForSensor(io, sensor)` of `alertService.js`: drop every
in-memory key starting with `sensor:`, bulk-resolve the matching records
stamping `resolvedAt := now`, and broadcast `alert_resolved` when at least one
record was modified. -/
def resolveAlertsForSensor (now : Int) (st : SysState) (sensor : String) :
    SysState :=
  let st0 := { st with calls := st.calls ++ [EngineCall.clear sensor] }
  let keys := st0.activeKeys.filter (fun k => !(jsStartsWith k (sensor ++ ":")))
  let modified := (st0.alerts.filter (matchesResolve sensor)).length
  let alerts := st0.alerts.map (fun r =>
    if matchesResolve sensor r then
      { r with status := "resolved", resolvedAt := some now }
    else r)
  let emitted :=
    if modified > 0 then st0.emitted ++ [Event.alert_resolved sensor]
    else st0.emitted
  { st0 with activeKeys := keys, alerts := alerts, emitted := emitted }

/-- One entry of `THRESHOLD_RULES`: `check` is the firing predicate over the
validated payload; `message` is the template, returning `none` when the JS
expression would throw a `TypeError` (calling `.toFixed` on a field that is
not a number, i.e. `null` or `undefined`). -/
structure ThresholdRule where
  sensor : String
  severity : String
  label : String
  threshold : String
  check : Packet → Bool
  message : Packet → Option String

/-- The `ph` entry of `THRESHOLD_RULES`. -/
def phRule : ThresholdRule :=
  { sensor := "ph", severity := "warning",
    label := "pH Sensor", threshold := "6.5 – 8.5",
    check := fun p => jsFieldLt p.ph (mkRat 13 2) || jsFieldGt p.ph (mkRat 17 2),
    message := fun p =>
      match p.ph with
      | some (JSVal.num n) =>
        let v := n.toFixed 2
        some s!"pH at {v} is outside safe range (6.5 – 8.5)"
      | _ => none }

/-- The `tds` entry of `THRESHOLD_RULES`. -/
def tdsRule : ThresholdRule :=
  { sensor := "tds", severity := "warning",
    label := "TDS Sensor", threshold := "≤ 5000 ppm",
    check := fun p => jsFieldGt p.tds 5000,
    message := fun p =>
      match p.tds with
      | some (JSVal.num n) =>
        let v := n.toFixed 0
        some s!"TDS at {v} ppm exceeds EOR limit of 5000 ppm"
      | _ => none }

/-- The `temperature` entry of `THRESHOLD_RULES`. -/
def temperatureRule : ThresholdRule :=
  { sensor := "temperature", severity := "warning",
    label := "Temperature Sensor", threshold := "10 – 40 °C",
    check := fun p => jsFieldLt p.temperature 10 || jsFieldGt p.temperature 40,
    message := fun p =>
      match p.temperature with
      | some (JSVal.num n) =>
        let v := n.toFixed 1
        some s!"Temperature at {v} °C is outside safe range (10 – 40 °C)"
      | _ => none }

/-- The `flow_rate` entry of `THRESHOLD_RULES`. -/
def flowRateRule : ThresholdRule :=
  { sensor := "flow_rate", severity := "warning",
    label := "Flow Rate Sensor", threshold := "0.5 – 10 L/min",
    check := fun p => jsFieldLt p.flow_rate (mkRat 1 2) || jsFieldGt p.flow_rate 10,
    message := fun p =>
      match p.flow_rate with
      | some (JSVal.num n) =>
        let v := n.toFixed 2
        some s!"Flow rate at {v} L/min is outside safe range (0.5 – 10 L/min)"
      | _ => none }

/-- `THRESHOLD_RULES` of `alertService.js`, in source order. -/
def THRESHOLD_RULES : List ThresholdRule :=
  [phRule, tdsRule, temperatureRule, flowRateRule]

/-- `payload[rule.sensor]`: dynamic field access used for the `value`
argument of `createAlert`. -/
def Packet.getField (p : Packet) (name : String) : Option JSVal :=
  match name with
  | "ph" => p.ph
  | "tds" => p.tds
  | "temperature" => p.temperature
  | "flow_rate" => p.flow_rate
  | "salinity" => p.salinity
  | "conductivity" => p.conductivity
  | "current" => p.current
  | "voltage" => p.voltage
  | "power" => p.power
  | "valve_status" => p.valve_status
  | _ => none

/-- The `for (const rule of THRESHOLD_RULES)` loop of
`processTelemetryAlerts`.  When a rule fires, the argument object of
`createAlert` is built first; if `rule.message(payload)` throws
(`message = none`), the surrounding `try/catch` swallows the error and the
remaining rules are not evaluated — the state reached so far is kept. -/
def runRules (now : Int) (p : Packet) : List ThresholdRule → SysState → SysState
  | [], st => st
  | r :: rs, st =>
    if r.check p then
      match r.message p with
      | none => st
      | some m =>
        runRules now p rs
          (createAlert now st r.severity r.sensor m (p.getField r.sensor) r.threshold)
    else
      runRules now p rs (resolveAlertsForSensor now st r.sensor)

/-- `processTelemetryAlerts(io, payload)` of `alertService.js`; the
`alertEvaluation` trace mark records that the evaluation step ran. -/
def processTelemetryAlerts (now : Int) (st : SysState) (p : Packet) : SysState :=
  runRules now p THRESHOLD_RULES
    { st with trace := st.trace ++ [RouterEvent.alertEvaluation] }

/-- `OFFLINE_THRESHOLD_MS` of `alertService.js`. -/
def OFFLINE_THRESHOLD_MS : Int := 60000

/-- The message built by `checkDeviceOffline` when firing
(`Math.floor(ageMs / 1000)` seconds). -/
def offlineMessage (ageMs : Int) : String :=
  let secs := Int.fdiv ageMs 1000
  s!"No telemetry received for {secs} s — device may be offline"

/-- `SystemLog.findOne().sort({ timestamp: -1 })`: the timestamp of the most
recently persisted reading, `none` on an empty collection. -/
def latestTs (rs : List SavedReading) : Option Int :=
  rs.foldl (fun acc r =>
    match acc with
    | none => some r.tsMs
    | some t => some (max t r.tsMs)) none

/-- `checkDeviceOffline(io, SystemLog)` of `alertService.js`: never alert on
an empty history; fire `device`/`critical` when the latest reading is older
than `OFFLINE_THRESHOLD_MS`, clear `device` otherwise. -/
def checkDeviceOffline (now : Int) (st : SysState) : SysState :=
  match latestTs st.readings with
  | none => st
  | some t =>
    let ageMs := now - t
    if ageMs > OFFLINE_THRESHOLD_MS then
      createAlert now st "critical" "device" (offlineMessage ageMs) none
        "< 60 s since last packet"
    else
      resolveAlertsForSensor now st "device"

/-- `handleTelemetry(rawPayload, io, SystemLog)` of `mqttListener.js`:
validate; on rejection log and drop; otherwise attempt persistence (`persistOk`
says whether `newLog.save()` succeeds — a failure is caught and only logged),
then evaluate the threshold rules, then broadcast `live_telemetry`. -/
def handleTelemetry (now : Int) (persistOk : Bool) (raw : Packet)
    (st : SysState) : SysState :=
  match validateTelemetry now raw with
  | .invalid _ => st
  | .valid payload vb dateMs =>
    let st1 := { st with
      trace := st.trace ++ [RouterEvent.persistAttempt persistOk],
      readings :=
        if persistOk then st.readings ++ [⟨dateMs, payload, vb⟩]
        else st.readings }
    let st2 := processTelemetryAlerts now st1 payload
    { st2 with
      trace := st2.trace ++ [RouterEvent.liveBroadcast],
      emitted := st2.emitted ++ [Event.live_telemetry payload vb] }

/-- Rendering of the spec sentence for `evaluate`: for each rule, if the
predicate is true, `fire(sensor, severity, message, value, threshold)` is
called, otherwise `clear(sensor)`.  Used as the expected call for comparison
with the engine's recorded calls (`getD ""` is irrelevant whenever the
message template cannot throw). -/
def expectedRuleCall (p : Packet) (r : ThresholdRule) : EngineCall :=
  if r.check p then
    EngineCall.fire r.sensor r.severity ((r.message p).getD "")
      (p.getField r.sensor) r.threshold
  else EngineCall.clear r.sensor

/-- A field that is either absent or carries a JS number (not `null`, not a
string): the shapes under which a rule's message template cannot throw. -/
def numericOrAbsent (v : Option JSVal) : Prop :=
  v = none ∨ ∃ n, v = some (JSVal.num n)

/-- Number of durable records for `(sensor, severity)` in a non-resolved
status (`active` or `acknowledged`) — the quantity the deduplication
invariant of the spec bounds by one. -/
def countNonResolved (alerts : List AlertRecord) (sensor severity : String) : Nat :=
  (alerts.filter (fun r =>
    r.sensor == sensor && r.severity == severity &&
      (r.status == "active" || r.status == "acknowledged"))).length

/-- A packet carrying only a fresh timestamp. -/
def tsOnlyPkt : Packet := { timestamp := some (some 0) }

/-- A packet whose `current` field is present with value `c`. -/
def currentPkt (c : JSVal) : Packet :=
  { timestamp := some (some 0), current := some c }

/-- A packet whose `power` field is present with value `c`. -/
def powerPkt (c : JSVal) : Packet :=
  { timestamp := some (some 0), power := some c }

/-- A fresh packet with `ph = 9.0` (soft pH violation, hard bounds fine). -/
def phHighPkt : Packet :=
  { timestamp := some (some 0), ph := some (JSVal.num (JSNum.fin 9)) }

/-- A fresh packet with `ph` present but `null`. -/
def nullPhPkt : Packet := { timestamp := some (some 0), ph := some JSVal.null }

/-- A fresh packet with `temperature = 5` (accepted, `PASS`, yet outside the
temperature rule's `10 – 40` band). -/
def tempFivePkt : Packet :=
  { timestamp := some (some 0), temperature := some (JSVal.num (JSNum.fin 5)) }

/-- A fresh packet with `flow_rate = 0.1` (accepted, `PASS`, yet below the
flow-rate rule's `0.5` bound). -/
def flowLowPkt : Packet :=
  { timestamp := some (some 0), flow_rate := some (JSVal.num (JSNum.fin (mkRat 1 10))) }

/-- A stored alert record for `(ph, warning)` in `acknowledged` status. -/
def ackDoc : AlertRecord :=
  { id := 0, severity := "warning", sensor := "ph", message := "pH alert",
    value := none, threshold := "6.5 – 8.5", tsMs := 0,
    status := "acknowledged", resolvedAt := none }

/-- A stored alert record for `(ph, warning)` in `active` status. -/
def activeDoc : AlertRecord :=
  { id := 0, severity := "warning", sensor := "ph", message := "pH alert",
    value := none, threshold := "6.5 – 8.5", tsMs := 0,
    status := "active", resolvedAt := none }

/-- State after a restart: empty in-memory index, but an `acknowledged`
record already in durable storage (reachable via the
`PATCH /api/alerts/:id/acknowledge` route). -/
def ackState : SysState := { initState with alerts := [ackDoc], nextId := 1 }

/-- State after a restart with an `active` record in durable storage. -/
def activeState : SysState := { initState with alerts := [activeDoc], nextId := 1 }

/-- State with one persisted reading at time 0. -/
def oneReadingState : SysState :=
  { initState with readings := [⟨0, tsOnlyPkt, ⟨"PASS", []⟩⟩] }

/-! ### Helper lemmas -/

/-- Every invocation of `createAlert` records exactly one `fire` call. -/
theorem createAlert_calls (now : Int) (st : SysState) (sev s m : String)
    (v : Option JSVal) (thr : String) :
    (createAlert now st sev s m v thr).calls =
      st.calls ++ [EngineCall.fire s sev m v thr] := by
  unfold createAlert
  dsimp only
  split
  · rfl
  · split <;> rfl

/-- Every invocation of `resolveAlertsForSensor` records exactly one `clear`
call. -/
theorem resolveAlertsForSensor_calls (now : Int) (st : SysState) (s : String) :
    (resolveAlertsForSensor now st s).calls =
      st.calls ++ [EngineCall.clear s] := by
  rfl

/-- `createAlert` neither reads nor writes the persisted readings or the
router trace. -/
theorem createAlert_param (now : Int) (st : SysState) (sev s m : String)
    (v : Option JSVal) (thr : String) (R : List SavedReading)
    (T : List RouterEvent) :
    createAlert now { st with readings := R, trace := T } sev s m v thr =
      { createAlert now st sev s m v thr with readings := R, trace := T } := by
  unfold createAlert
  dsimp only
  split <;> [rfl; (split <;> rfl)]

/-- `resolveAlertsForSensor` neither reads nor writes the persisted readings
or the router trace. -/
theorem resolveAlertsForSensor_param (now : Int) (st : SysState) (s : String)
    (R : List SavedReading) (T : List RouterEvent) :
    resolveAlertsForSensor now { st with readings := R, trace := T } s =
      { resolveAlertsForSensor now st s with readings := R, trace := T } := by
  rfl

/-- The rule loop neither reads nor writes the persisted readings or the
router trace. -/
theorem runRules_param (now : Int) (p : Packet) (rs : List ThresholdRule) :
    ∀ (st : SysState) (R : List SavedReading) (T : List RouterEvent),
      runRules now p rs { st with readings := R, trace := T } =
        { runRules now p rs st with readings := R, trace := T } := by
  induction rs with
  | nil => intro st R T; rfl
  | cons r rs ih =>
    intro st R T
    unfold runRules
    dsimp only
    by_cases hc : r.check p = true
    · rw [if_pos hc, if_pos hc]
      cases hm : r.message p with
      | none => rfl
      | some m =>
        dsimp only
        rw [createAlert_param]
        exact ih _ R T
    · rw [if_neg hc, if_neg hc]
      rw [resolveAlertsForSensor_param]
      exact ih _ R T

/-- `key.startsWith(pre)` holds whenever `key` literally extends `pre`. -/
theorem jsStartsWith_append (a b : String) : jsStartsWith (a ++ b) a = true := by
  unfold jsStartsWith
  rw [String.data_append]
  simp [List.isPrefixOf_iff_prefix]

/-- Normal form of the accepted telemetry path: persistence attempt (its
outcome `ok` only affecting the stored readings), then rule evaluation, then
the `live_telemetry` broadcast. -/
theorem handleTelemetry_normal (now d : Int) (st : SysState)
    (raw payload : Packet) (vb : ValidationBlock)
    (h : validateTelemetry now raw = .valid payload vb d) (ok : Bool) :
    handleTelemetry now ok raw st =
      { runRules now payload THRESHOLD_RULES st with
          readings :=
            if ok then st.readings ++ [⟨d, payload, vb⟩] else st.readings,
          trace := st.trace ++ [RouterEvent.persistAttempt ok,
            RouterEvent.alertEvaluation, RouterEvent.liveBroadcast],
          emitted := (runRules now payload THRESHOLD_RULES st).emitted
            ++ [Event.live_telemetry payload vb] } := by
  unfold handleTelemetry
  rw [h]
  unfold processTelemetryAlerts
  dsimp only
  rw [runRules_param]
  simp [SysState.mk.injEq, List.append_assoc]

/-- The calls recorded by the rule loop are exactly one `fire`/`clear` per
rule in order, as long as no firing rule's message template throws. -/
theorem runRules_calls (now : Int) (p : Packet) :
    ∀ (rs : List ThresholdRule) (st : SysState),
      (∀ r ∈ rs, r.check p = true → (r.message p).isSome) →
      (runRules now p rs st).calls = st.calls ++ rs.map (expectedRuleCall p) := by
  intro rs
  induction rs with
  | nil => intro st _; simp [runRules]
  | cons r rs ih =>
    intro st hsafe
    unfold runRules
    by_cases hc : r.check p = true
    · have hm : (r.message p).isSome := hsafe r (by simp) hc
      obtain ⟨m, hmeq⟩ := Option.isSome_iff_exists.mp hm
      rw [if_pos hc, hmeq]
      dsimp only
      rw [ih _ (fun r' hr' => hsafe r' (List.mem_cons_of_mem _ hr'))]
      rw [createAlert_calls]
      simp [expectedRuleCall, hc, hmeq, List.append_assoc]
    · rw [if_neg hc]
      rw [ih _ (fun r' hr' => hsafe r' (List.mem_cons_of_mem _ hr'))]
      rw [resolveAlertsForSensor_calls]
      simp [expectedRuleCall, hc, List.append_assoc]

/-- The `ph` rule cannot fire with a throwing message template when the `ph`
field is absent or numeric. -/
theorem phRule_safe (p : Packet) (h : numericOrAbsent p.ph) :
    phRule.check p = true → (phRule.message p).isSome := by
  rcases h with h | ⟨n, h⟩ <;> intro hc
  · rw [phRule] at hc
    simp [jsFieldLt, jsFieldGt, h] at hc
  · simp [phRule, h]

/-- The `tds` rule cannot fire with a throwing message template when the
`tds` field is absent or numeric. -/
theorem tdsRule_safe (p : Packet) (h : numericOrAbsent p.tds) :
    tdsRule.check p = true → (tdsRule.message p).isSome := by
  rcases h with h | ⟨n, h⟩ <;> intro hc
  · rw [tdsRule] at hc
    simp [jsFieldLt, jsFieldGt, h] at hc
  · simp [tdsRule, h]

/-- The `temperature` rule cannot fire with a throwing message template when
the `temperature` field is absent or numeric. -/
theorem temperatureRule_safe (p : Packet) (h : numericOrAbsent p.temperature) :
    temperatureRule.check p = true → (temperatureRule.message p).isSome := by
  rcases h with h | ⟨n, h⟩ <;> intro hc
  · rw [temperatureRule] at hc
    simp [jsFieldLt, jsFieldGt, h] at hc
  · simp [temperatureRule, h]

/-- The `flow_rate` rule cannot fire with a throwing message template when
the `flow_rate` field is absent or numeric. -/
theorem flowRateRule_safe (p : Packet) (h : numericOrAbsent p.flow_rate) :
    flowRateRule.check p = true → (flowRateRule.message p).isSome := by
  rcases h with h | ⟨n, h⟩ <;> intro hc
  · rw [flowRateRule] at hc
    simp [jsFieldLt, jsFieldGt, h] at hc
  · simp [flowRateRule, h]

/-- Inversion of acceptance: an accepted packet is returned unchanged, its
validation block is the soft-compliance block, and the returned date is the
parsed timestamp. -/
theorem validateTelemetry_valid_inv (now : Int) (p payload : Packet)
    (vb : ValidationBlock) (d : Int)
    (h : validateTelemetry now p = .valid payload vb d) :
    payload = p ∧ vb = softValidation p ∧ p.timestamp = some (some d) := by
  unfold validateTelemetry at h
  split at h
  · exact absurd h (by simp)
  · split at h
    · exact absurd h (by simp)
    · split at h
      · exact absurd h (by simp)
      · dsimp only at h
        split at h
        · exact absurd h (by simp)
        · split at h
          · exact absurd h (by simp)
          · rename_i t hts hgt hlt
            injection h with h1 h2 h3
            exact ⟨h1.symm, h2.symm, by rw [hts, h3]⟩

/-- A raised soft pH flag means `ph` was present, non-null and outside
`[6.5, 8.5]` under the JS comparisons. -/
theorem softViolationPh_inv (p : Packet) (hp : softViolationPh p = true) :
    ∃ w, p.ph = some w ∧ w ≠ JSVal.null ∧
      (w.toNum.jsLt (JSNum.fin (mkRat 13 2))
        || (JSNum.fin (mkRat 17 2)).jsLt w.toNum) = true := by
  unfold softViolationPh at hp
  split at hp
  · exact absurd hp (by simp)
  · exact absurd hp (by simp)
  · rename_i w hne heq
    exact ⟨w, heq, hne, hp⟩

/-- A raised soft TDS flag means `tds` was present, non-null and `> 5000`
under the JS comparisons. -/
theorem softViolationTds_inv (p : Packet) (hp : softViolationTds p = true) :
    ∃ w, p.tds = some w ∧ w ≠ JSVal.null ∧
      (JSNum.fin 5000).jsLt w.toNum = true := by
  unfold softViolationTds at hp
  split at hp
  · exact absurd hp (by simp)
  · exact absurd hp (by simp)
  · rename_i w hne heq
    exact ⟨w, heq, hne, hp⟩

/-! ### Claim theorems -/

/-- C3, counterexample: the validator accepts `current = Infinity` and
`power = NaN` (both of JS type `number` but not finite), contradicting the
claim that any non-finite value for these fields is rejected. -/
theorem claim3_counterexample :
    validateTelemetry 0 (currentPkt (JSVal.num JSNum.inf)) =
      .valid (currentPkt (JSVal.num JSNum.inf)) ⟨"PASS", []⟩ 0 ∧
    validateTelemetry 0 (powerPkt (JSVal.num JSNum.nan)) =
      .valid (powerPkt (JSVal.num JSNum.nan)) ⟨"PASS", []⟩ 0 :=
  ⟨rfl, rfl⟩

/-- C3 (amended): for a present, non-null `current` or `power` value the
bound check accepts iff the value is of JS type `number` (`NaN` and the
infinities included); any non-number is rejected with the field-specific
reason naming the field. -/
theorem claim3_current_power_typeof (c : JSVal) (hc : c ≠ JSVal.null) :
    (c.isNumber = true →
      validateTelemetry 0 (currentPkt c) = .valid (currentPkt c) ⟨"PASS", []⟩ 0 ∧
      validateTelemetry 0 (powerPkt c) = .valid (powerPkt c) ⟨"PASS", []⟩ 0) ∧
    (c.isNumber = false →
      validateTelemetry 0 (currentPkt c) = .invalid "current must be a valid number" ∧
      validateTelemetry 0 (powerPkt c) = .invalid "power must be a valid number") := by
  cases c with
  | num n => exact ⟨fun _ => ⟨rfl, rfl⟩, fun h => by simp [JSVal.isNumber] at h⟩
  | null => exact absurd rfl hc
  | str s => exact ⟨fun h => by simp [JSVal.isNumber] at h, fun _ => ⟨rfl, rfl⟩⟩

/-- C3, witness: a non-number `current` is rejected with the
`current`-specific reason. -/
theorem claim3_witness :
    validateTelemetry 0 (currentPkt (JSVal.str "x")) =
      .invalid "current must be a valid number" :=
  ((claim3_current_power_typeof (JSVal.str "x") (by decide)).2 rfl).1

/-- C4: for any otherwise-valid packet with parsed timestamp `t`, the packet
is rejected stale when `now − t > 5000`, rejected future-dated when
`now − t < −5000`, and accepted when `−5000 ≤ now − t ≤ 5000` (so exactly
5000 ms in the past is accepted). -/
theorem claim4_freshness (p : Packet) (t now : Int)
    (h1 : p.timestamp = some (some t)) (h2 : fieldBoundsError p = none) :
    (now - t > 5000 →
      validateTelemetry now p = .invalid "Timestamp is too old (latency > 5s)") ∧
    (now - t < -5000 →
      validateTelemetry now p = .invalid "Timestamp is in the future") ∧
    (-5000 ≤ now - t → now - t ≤ 5000 →
      validateTelemetry now p = .valid p (softValidation p) t) := by
  have hM : MAX_LATENCY_MS = 5000 := rfl
  unfold validateTelemetry
  rw [h1, h2]
  dsimp only
  refine ⟨fun h => ?_, fun h => ?_, fun hge hle => ?_⟩
  · rw [if_pos (by omega : now - t > MAX_LATENCY_MS)]
  · rw [if_neg (by omega : ¬(now - t > MAX_LATENCY_MS)),
      if_pos (by omega : now - t < -MAX_LATENCY_MS)]
  · rw [if_neg (by omega : ¬(now - t > MAX_LATENCY_MS)),
      if_neg (by omega : ¬(now - t < -MAX_LATENCY_MS))]

/-- C4, witness: the three freshness boundary cases at concrete instants:
5000 ms in the past accepted, 5001 ms in the past stale, 5001 ms in the
future future-dated. -/
theorem claim4_witness :
    validateTelemetry 5000 tsOnlyPkt = .valid tsOnlyPkt (softValidation tsOnlyPkt) 0 ∧
    validateTelemetry 5001 tsOnlyPkt = .invalid "Timestamp is too old (latency > 5s)" ∧
    validateTelemetry (-5001) tsOnlyPkt = .invalid "Timestamp is in the future" :=
  ⟨(claim4_freshness tsOnlyPkt 0 5000 rfl rfl).2.2 (by decide) (by decide),
   (claim4_freshness tsOnlyPkt 0 5001 rfl rfl).1 (by decide),
   (claim4_freshness tsOnlyPkt 0 (-5001) rfl rfl).2.1 (by decide)⟩

/-- C5: on every accepted packet, `status == FAIL` iff `failed_parameters`
is non-empty, and a name appears in `failed_parameters` only if the field
was present, non-null and violates its soft bound (`ph` outside `[6.5, 8.5]`,
`tds > 5000`); an absent field never appears. -/
theorem claim5_soft_compliance (now : Int) (p payload : Packet)
    (vb : ValidationBlock) (d : Int)
    (h : validateTelemetry now p = .valid payload vb d) :
    (vb.status = "FAIL" ↔ vb.failed_parameters ≠ []) ∧
    (∀ s ∈ vb.failed_parameters,
      (s = "ph" ∧ ∃ w, p.ph = some w ∧ w ≠ JSVal.null ∧
        (w.toNum.jsLt (JSNum.fin (mkRat 13 2))
          || (JSNum.fin (mkRat 17 2)).jsLt w.toNum) = true) ∨
      (s = "tds" ∧ ∃ w, p.tds = some w ∧ w ≠ JSVal.null ∧
        (JSNum.fin 5000).jsLt w.toNum = true)) ∧
    (p.ph = none → "ph" ∉ vb.failed_parameters) ∧
    (p.tds = none → "tds" ∉ vb.failed_parameters) := by
  obtain ⟨-, hvb, -⟩ := validateTelemetry_valid_inv now p payload vb d h
  subst hvb
  refine ⟨?_, ?_, ?_, ?_⟩
  · by_cases hp : softViolationPh p <;> by_cases ht : softViolationTds p <;>
      simp [softValidation, hp, ht]
  · intro s hs
    by_cases hp : softViolationPh p <;> by_cases ht : softViolationTds p <;>
      simp [softValidation, hp, ht] at hs
    · rcases hs with rfl | rfl
      · exact Or.inl ⟨rfl, softViolationPh_inv p hp⟩
      · exact Or.inr ⟨rfl, softViolationTds_inv p ht⟩
    · rcases hs with rfl
      exact Or.inl ⟨rfl, softViolationPh_inv p hp⟩
    · rcases hs with rfl
      exact Or.inr ⟨rfl, softViolationTds_inv p ht⟩
  · intro hph
    have hp : softViolationPh p = false := by unfold softViolationPh; rw [hph]
    by_cases ht : softViolationTds p <;> simp [softValidation, hp, ht]
  · intro htds
    have ht : softViolationTds p = false := by unfold softViolationTds; rw [htds]
    by_cases hp : softViolationPh p <;> simp [softValidation, hp, ht]

/-- C5, witness: the packet with `ph = 9.0` is accepted with
`status = FAIL` iff its `failed_parameters` (namely `["ph"]`) is non-empty. -/
theorem claim5_witness :
    (softValidation phHighPkt).status = "FAIL" ↔
      (softValidation phHighPkt).failed_parameters ≠ [] :=
  (claim5_soft_compliance 0 phHighPkt phHighPkt (softValidation phHighPkt) 0 rfl).1

/-- C10: the rule table binds `temperature` (10 – 40, warning) and
`flow_rate` (0.5 – 10, warning), neither of which has a soft-compliance
bound: the packets with `temperature = 5` and `flow_rate = 0.1` are both
accepted with `PASS` and empty `failed_parameters`, yet `evaluate` fires a
warning alert for the corresponding sensor. -/
theorem claim10_rules_beyond_soft_bounds :
    THRESHOLD_RULES.map (fun r => (r.sensor, r.severity, r.threshold)) =
      [("ph", "warning", "6.5 – 8.5"), ("tds", "warning", "≤ 5000 ppm"),
       ("temperature", "warning", "10 – 40 °C"),
       ("flow_rate", "warning", "0.5 – 10 L/min")] ∧
    validateTelemetry 0 tempFivePkt = .valid tempFivePkt ⟨"PASS", []⟩ 0 ∧
    (processTelemetryAlerts 0 initState tempFivePkt).calls =
      [EngineCall.clear "ph", EngineCall.clear "tds",
       EngineCall.fire "temperature" "warning"
         "Temperature at 5.0 °C is outside safe range (10 – 40 °C)"
         (some (JSVal.num (JSNum.fin 5))) "10 – 40 °C",
       EngineCall.clear "flow_rate"] ∧
    ((processTelemetryAlerts 0 initState tempFivePkt).alerts.map
      (fun r => (r.sensor, r.severity, r.status))) =
        [("temperature", "warning", "active")] ∧
    validateTelemetry 0 flowLowPkt = .valid flowLowPkt ⟨"PASS", []⟩ 0 ∧
    EngineCall.fire "flow_rate" "warning"
        "Flow rate at 0.10 L/min is outside safe range (0.5 – 10 L/min)"
        (some (JSVal.num (JSNum.fin (mkRat 1 10)))) "0.5 – 10 L/min" ∈
      (processTelemetryAlerts 0 initState flowLowPkt).calls := by
  refine ⟨rfl, rfl, ?_, ?_, rfl, ?_⟩ <;> decide

/-- C2, counterexample: the packet `{timestamp: now, ph: null}` is accepted
by the validator, the `ph` rule's predicate is true on it (JS `null < 6.5`),
yet no `fire` and no `clear` call at all is made for it: building the
`createAlert` argument object throws (`null.toFixed`), the `try/catch`
swallows the error, and the remaining rules are skipped. -/
theorem claim2_counterexample :
    validateTelemetry 0 nullPhPkt = .valid nullPhPkt ⟨"PASS", []⟩ 0 ∧
    phRule.check nullPhPkt = true ∧
    (processTelemetryAlerts 0 initState nullPhPkt).calls = [] := by
  decide

/-- C2 (amended): for every accepted payload whose rule-bound fields
(`ph`, `tds`, `temperature`, `flow_rate`) are each absent or numeric, every
rule in the table is evaluated in order: a true predicate yields a `fire`
call with that rule's sensor, severity, message, value and threshold, a
false predicate yields a `clear` call for the rule's sensor. -/
theorem claim2_rules_evaluation (now : Int) (st : SysState) (p : Packet)
    (hph : numericOrAbsent p.ph) (htds : numericOrAbsent p.tds)
    (htemp : numericOrAbsent p.temperature)
    (hflow : numericOrAbsent p.flow_rate) :
    (processTelemetryAlerts now st p).calls =
      st.calls ++ THRESHOLD_RULES.map (expectedRuleCall p) := by
  unfold processTelemetryAlerts
  rw [runRules_calls]
  intro r hr hc
  simp only [THRESHOLD_RULES, List.mem_cons, List.not_mem_nil, or_false] at hr
  rcases hr with rfl | rfl | rfl | rfl
  · exact phRule_safe p hph hc
  · exact tdsRule_safe p htds hc
  · exact temperatureRule_safe p htemp hc
  · exact flowRateRule_safe p hflow hc

/-- C2, witness: on the accepted packet with `ph = 9.0` the recorded calls
are exactly one fire/clear per rule in table order. -/
theorem claim2_witness :
    (processTelemetryAlerts 0 initState phHighPkt).calls =
      initState.calls ++ THRESHOLD_RULES.map (expectedRuleCall phHighPkt) :=
  claim2_rules_evaluation 0 initState phHighPkt
    (Or.inr ⟨JSNum.fin 9, rfl⟩) (Or.inl rfl) (Or.inl rfl) (Or.inl rfl)

/-- C6: with no active key and no active stored record for
`(sensor, severity)`, firing twice in succession creates exactly one record
and exactly one broadcast; the second call finds the key in the in-memory
set and changes nothing beyond recording its own invocation. -/
theorem claim6_fire_idempotent (st : SysState) (now now2 : Int)
    (sev s m m2 thr thr2 : String) (v v2 : Option JSVal)
    (h1 : (s ++ ":" ++ sev) ∉ st.activeKeys)
    (h2 : findActiveAlert st.alerts s sev = none) :
    (createAlert now st sev s m v thr).alerts =
      st.alerts ++ [⟨st.nextId, sev, s, m, v, thr, now, "active", none⟩] ∧
    (createAlert now st sev s m v thr).emitted =
      st.emitted ++ [Event.system_alert
        (formatAlert ⟨st.nextId, sev, s, m, v, thr, now, "active", none⟩)] ∧
    createAlert now2 (createAlert now st sev s m v thr) sev s m2 v2 thr2 =
      { createAlert now st sev s m v thr with
          calls := (createAlert now st sev s m v thr).calls
            ++ [EngineCall.fire s sev m2 v2 thr2] } := by
  have hbranch : createAlert now st sev s m v thr = { st with
      activeKeys := (s ++ ":" ++ sev) :: st.activeKeys,
      alerts := st.alerts ++ [⟨st.nextId, sev, s, m, v, thr, now, "active", none⟩],
      emitted := st.emitted ++ [Event.system_alert
        (formatAlert ⟨st.nextId, sev, s, m, v, thr, now, "active", none⟩)],
      nextId := st.nextId + 1,
      calls := st.calls ++ [EngineCall.fire s sev m v thr] } := by
    unfold createAlert
    dsimp only
    rw [if_neg h1, h2]
  refine ⟨by rw [hbranch], by rw [hbranch], ?_⟩
  rw [hbranch]
  unfold createAlert
  dsimp only
  rw [if_pos (List.mem_cons_self _ _)]

/-- C6, witness: the two successive identical fires on the empty state. -/
theorem claim6_witness :
    createAlert 1 (createAlert 0 initState "warning" "ph" "m" none "t")
        "warning" "ph" "m2" none "t2" =
      { createAlert 0 initState "warning" "ph" "m" none "t" with
          calls := (createAlert 0 initState "warning" "ph" "m" none "t").calls
            ++ [EngineCall.fire "ph" "warning" "m2" none "t2"] } :=
  (claim6_fire_idempotent initState 0 1 "warning" "ph" "m" "m2" "t" "t2"
    none none (by decide) rfl).2.2

/-- C7: after `fire` followed by `clear` for the same sensor, no index key
for that sensor remains (any severity), every matching stored record in
`active`/`acknowledged` status is `resolved` with `resolvedAt` stamped, and
the `alert_resolved` broadcast happens iff at least one record matched. -/
theorem claim7_fire_clear_roundtrip (st : SysState) (now now2 : Int)
    (sev s m thr : String) (v : Option JSVal) :
    (∀ sev', (s ++ ":" ++ sev') ∉
      (resolveAlertsForSensor now2 (createAlert now st sev s m v thr) s).activeKeys) ∧
    (∀ r ∈ (createAlert now st sev s m v thr).alerts,
      r.sensor = s → (r.status = "active" ∨ r.status = "acknowledged") →
        { r with status := "resolved", resolvedAt := some now2 } ∈
          (resolveAlertsForSensor now2 (createAlert now st sev s m v thr) s).alerts) ∧
    ((∃ r ∈ (createAlert now st sev s m v thr).alerts,
        r.sensor = s ∧ (r.status = "active" ∨ r.status = "acknowledged")) →
      (resolveAlertsForSensor now2 (createAlert now st sev s m v thr) s).emitted =
        (createAlert now st sev s m v thr).emitted ++ [Event.alert_resolved s]) ∧
    ((¬ ∃ r ∈ (createAlert now st sev s m v thr).alerts,
        r.sensor = s ∧ (r.status = "active" ∨ r.status = "acknowledged")) →
      (resolveAlertsForSensor now2 (createAlert now st sev s m v thr) s).emitted =
        (createAlert now st sev s m v thr).emitted) := by
  generalize createAlert now st sev s m v thr = st1
  have hmatch : ∀ r : AlertRecord, matchesResolve s r = true ↔
      (r.sensor = s ∧ (r.status = "active" ∨ r.status = "acknowledged")) := by
    intro r
    simp [matchesResolve]
  have hmod : ((st1.alerts.filter (matchesResolve s)).length > 0) ↔
      (∃ r ∈ st1.alerts, r.sensor = s ∧
        (r.status = "active" ∨ r.status = "acknowledged")) := by
    rw [gt_iff_lt, List.length_pos]
    constructor
    · intro hne
      rcases List.exists_mem_of_ne_nil _ hne with ⟨r, hr⟩
      obtain ⟨hrmem, hrp⟩ := List.mem_filter.mp hr
      exact ⟨r, hrmem, (hmatch r).mp hrp⟩
    · rintro ⟨r, hrmem, hrp⟩
      intro hnil
      have := List.filter_eq_nil_iff.mp hnil r hrmem
      exact this ((hmatch r).mpr hrp)
  refine ⟨?_, ?_, ?_, ?_⟩
  · intro sev' hmem
    have hk : (resolveAlertsForSensor now2 st1 s).activeKeys =
        st1.activeKeys.filter (fun k => !(jsStartsWith k (s ++ ":"))) := rfl
    rw [hk] at hmem
    obtain ⟨-, hcond⟩ := List.mem_filter.mp hmem
    rw [jsStartsWith_append (s ++ ":") sev'] at hcond
    simp at hcond
  · intro r hr hs hst
    have ha : (resolveAlertsForSensor now2 st1 s).alerts =
        st1.alerts.map (fun r => if matchesResolve s r then
          { r with status := "resolved", resolvedAt := some now2 } else r) := rfl
    rw [ha]
    refine List.mem_map.mpr ⟨r, hr, ?_⟩
    rw [if_pos ((hmatch r).mpr ⟨hs, hst⟩)]
  · intro hex
    have he : (resolveAlertsForSensor now2 st1 s).emitted =
        if (st1.alerts.filter (matchesResolve s)).length > 0 then
          st1.emitted ++ [Event.alert_resolved s]
        else st1.emitted := rfl
    rw [he, if_pos (hmod.mpr hex)]
  · intro hex
    have he : (resolveAlertsForSensor now2 st1 s).emitted =
        if (st1.alerts.filter (matchesResolve s)).length > 0 then
          st1.emitted ++ [Event.alert_resolved s]
        else st1.emitted := rfl
    rw [he, if_neg (fun hpos => hex (hmod.mp hpos))]

/-- C7, witness: fire then clear for `ph` on the empty state — the key is
gone, the created record is resolved with its `resolvedAt` stamped, and the
resolution broadcast happened. -/
theorem claim7_witness :
    ("ph" ++ ":" ++ "warning") ∉
      (resolveAlertsForSensor 5 (createAlert 0 initState "warning" "ph" "m" none "t")
        "ph").activeKeys ∧
    ({ (⟨0, "warning", "ph", "m", none, "t", 0, "active", none⟩ : AlertRecord) with
        status := "resolved", resolvedAt := some 5 } ∈
      (resolveAlertsForSensor 5 (createAlert 0 initState "warning" "ph" "m" none "t")
        "ph").alerts) ∧
    (resolveAlertsForSensor 5 (createAlert 0 initState "warning" "ph" "m" none "t")
        "ph").emitted =
      (createAlert 0 initState "warning" "ph" "m" none "t").emitted
        ++ [Event.alert_resolved "ph"] :=
  ⟨(claim7_fire_clear_roundtrip initState 0 5 "warning" "ph" "m" "t" none).1 "warning",
   (claim7_fire_clear_roundtrip initState 0 5 "warning" "ph" "m" "t" none).2.1
     ⟨0, "warning", "ph", "m", none, "t", 0, "active", none⟩ (by decide) rfl (Or.inl rfl),
   (claim7_fire_clear_roundtrip initState 0 5 "warning" "ph" "m" "t" none).2.2.1
     ⟨⟨0, "warning", "ph", "m", none, "t", 0, "active", none⟩, by decide, rfl, Or.inl rfl⟩⟩

/-- C1, counterexample: after a restart (empty index), with an
`acknowledged` — hence non-resolved — record for `(ph, warning)` already in
durable storage, `fire` creates a second record anyway (the DB query only
matches `status: 'active'`), leaving two non-resolved records for the pair
and violating the claimed invariant. -/
theorem claim1_counterexample :
    countNonResolved ackState.alerts "ph" "warning" = 1 ∧
    countNonResolved
      (createAlert 5 ackState "warning" "ph" "pH alert" none "6.5 – 8.5").alerts
      "ph" "warning" = 2 := by
  decide

/-- C1 (amended): when the key is not in the index, the engine queries
durable storage for an existing record with status `active` only and creates
nothing when one is found (the key is merely re-added); consequently at most
one record with status `active` exists per `(sensor, severity)` pair — but an
`acknowledged` record does not block creation. -/
theorem claim1_dedup_active_only (st : SysState) (now : Int) (sev s m : String)
    (v : Option JSVal) (thr : String) (s2 sev2 : String) :
    ((s ++ ":" ++ sev) ∉ st.activeKeys →
      (findActiveAlert st.alerts s sev).isSome →
      createAlert now st sev s m v thr =
        { st with activeKeys := (s ++ ":" ++ sev) :: st.activeKeys,
                  calls := st.calls ++ [EngineCall.fire s sev m v thr] }) ∧
    (countActive st.alerts s2 sev2 ≤ 1 →
      countActive (createAlert now st sev s m v thr).alerts s2 sev2 ≤ 1) := by
  constructor
  · intro h1 h2
    obtain ⟨r, hr⟩ := Option.isSome_iff_exists.mp h2
    unfold createAlert
    dsimp only
    rw [if_neg h1, hr]
  · intro hle
    unfold createAlert
    dsimp only
    by_cases h1 : (s ++ ":" ++ sev) ∈ st.activeKeys
    · rw [if_pos h1]
      exact hle
    · rw [if_neg h1]
      cases hf : findActiveAlert st.alerts s sev with
      | some r => exact hle
      | none =>
        dsimp only
        unfold countActive at hle ⊢
        rw [List.filter_append, List.length_append]
        have hf' : st.alerts.find? (isActiveFor s sev) = none := hf
        cases hd : isActiveFor s2 sev2
            ⟨st.nextId, sev, s, m, v, thr, now, "active", none⟩ with
        | false =>
          simpa [hd] using hle
        | true =>
          have heq : s = s2 ∧ sev = sev2 := by
            have hd2 := hd
            simp only [isActiveFor, Bool.and_eq_true, beq_iff_eq] at hd2
            exact ⟨hd2.1.1, hd2.1.2⟩
          have hnil : List.filter (isActiveFor s2 sev2) st.alerts = [] := by
            rw [List.filter_eq_nil_iff]
            intro a ha
            rw [← heq.1, ← heq.2]
            exact List.find?_eq_none.mp hf' a ha
          rw [hnil]
          simp [hd]

/-- C1, witness: with an `active` record in storage and a stale (empty)
index, `fire` re-adds the key and creates nothing. -/
theorem claim1_witness :
    createAlert 7 activeState "warning" "ph" "m" none "t" =
      { activeState with
          activeKeys := ("ph" ++ ":" ++ "warning") :: activeState.activeKeys,
          calls := activeState.calls
            ++ [EngineCall.fire "ph" "warning" "m" none "t"] } :=
  (claim1_dedup_active_only activeState 7 "warning" "ph" "m" none "t" "x" "y").1
    (by decide) (by decide)

/-- C9: on a watchdog tick, an empty history changes nothing (no fire, no
clear); a latest reading older than the 60 s threshold produces exactly one
`fire("device","critical", …)` call whose message states the elapsed
seconds; otherwise exactly one `clear("device")` call. -/
theorem claim9_offline_watchdog (now : Int) (st : SysState) :
    (latestTs st.readings = none → checkDeviceOffline now st = st) ∧
    (∀ t, latestTs st.readings = some t → now - t > OFFLINE_THRESHOLD_MS →
      (checkDeviceOffline now st).calls = st.calls ++
        [EngineCall.fire "device" "critical" (offlineMessage (now - t)) none
          "< 60 s since last packet"]) ∧
    (∀ t, latestTs st.readings = some t → ¬(now - t > OFFLINE_THRESHOLD_MS) →
      (checkDeviceOffline now st).calls =
        st.calls ++ [EngineCall.clear "device"]) := by
  refine ⟨fun h => ?_, fun t ht hgt => ?_, fun t ht hle => ?_⟩
  · unfold checkDeviceOffline
    rw [h]
  · unfold checkDeviceOffline
    rw [ht]
    dsimp only
    rw [if_pos hgt]
    exact createAlert_calls now st "critical" "device" _ none _
  · unfold checkDeviceOffline
    rw [ht]
    dsimp only
    rw [if_neg hle]
    exact resolveAlertsForSensor_calls now st "device"

/-- C9, witness: one reading persisted at time 0, tick at 61001 ms — the
watchdog fires `device`/`critical` stating 61 elapsed seconds. -/
theorem claim9_witness :
    (checkDeviceOffline 61001 oneReadingState).calls =
      oneReadingState.calls ++
        [EngineCall.fire "device" "critical" (offlineMessage (61001 - 0)) none
          "< 60 s since last packet"] :=
  (claim9_offline_watchdog 61001 oneReadingState).2.1 0 rfl (by decide)

/-- C8: on every accepted packet the telemetry path runs persistence attempt,
then rule evaluation, then the live broadcast, and a persistence failure
changes nothing except the stored readings: calls, broadcasts, alert records
and index are identical, and the `live_telemetry` broadcast still happens. -/
theorem claim8_persist_ordering (now d : Int) (st : SysState)
    (raw payload : Packet) (vb : ValidationBlock)
    (h : validateTelemetry now raw = .valid payload vb d) :
    (∀ ok, (handleTelemetry now ok raw st).trace =
      st.trace ++ [RouterEvent.persistAttempt ok, RouterEvent.alertEvaluation,
        RouterEvent.liveBroadcast]) ∧
    (handleTelemetry now false raw st).calls =
      (handleTelemetry now true raw st).calls ∧
    (handleTelemetry now false raw st).emitted =
      (handleTelemetry now true raw st).emitted ∧
    (handleTelemetry now false raw st).alerts =
      (handleTelemetry now true raw st).alerts ∧
    (handleTelemetry now false raw st).activeKeys =
      (handleTelemetry now true raw st).activeKeys ∧
    (handleTelemetry now false raw st).readings = st.readings ∧
    (handleTelemetry now true raw st).readings =
      st.readings ++ [⟨d, payload, vb⟩] ∧
    Event.live_telemetry payload vb ∈ (handleTelemetry now false raw st).emitted := by
  have hN := handleTelemetry_normal now d st raw payload vb h
  refine ⟨fun ok => by rw [hN ok], by rw [hN false, hN true],
    by rw [hN false, hN true], by rw [hN false, hN true],
    by rw [hN false, hN true], by rw [hN false]; rfl, by rw [hN true]; rfl, ?_⟩
  rw [hN false]
  simp

/-- C8, witness: the timestamp-only packet is accepted; with persistence
failing the router still evaluates and broadcasts in order, and with it
succeeding the reading is stored. -/
theorem claim8_witness :
    (handleTelemetry 0 false tsOnlyPkt initState).trace =
      initState.trace ++ [RouterEvent.persistAttempt false,
        RouterEvent.alertEvaluation, RouterEvent.liveBroadcast] ∧
    (handleTelemetry 0 true tsOnlyPkt initState).readings =
      initState.readings ++ [⟨0, tsOnlyPkt, ⟨"PASS", []⟩⟩] :=
  ⟨(claim8_persist_ordering 0 0 initState tsOnlyPkt tsOnlyPkt ⟨"PASS", []⟩ rfl).1 false,
   (claim8_persist_ordering 0 0 initState tsOnlyPkt tsOnlyPkt
     ⟨"PASS", []⟩ rfl).2.2.2.2.2.2.1⟩



